import Mathlib

/-!
Shallow embedding of the rqlite-rs client (src/types.rs, src/row.rs,
src/connect.rs) and proofs about its request path, column-type parsing
and row decoding.

JSON values are modelled by an explicit inductive type; JSON numbers are
kept as decimal literals (mantissa and a power-of-ten denominator), so
the embedding never needs floating-point semantics.  Machinery the spec
declares external (the socket, TLS, the JSON text parser) is abstracted:
responses enter the model already parsed.
-/

set_option autoImplicit false

/-- Decimal JSON number: the literal `mantissa * 10 ^ (-exponent)`.
This embeds the parsed numeric literal without floating-point semantics. -/
structure JsonNum where
  mantissa : Int
  exponent : Nat
  deriving DecidableEq, Repr

/-- Generic JSON value tree (the model of `serde_json::Value`). -/
inductive Json where
  | null
  | bool (b : Bool)
  | num (n : JsonNum)
  | str (s : String)
  | arr (elems : List Json)
  | obj (fields : List (String × Json))

/-- Model of `serde_json::Value::is_object`. -/
def Json.is_object : Json → Bool
  | .obj _ => true
  | _ => false

/-- Model of `serde_json::Value::as_object` (the `Some` branch carries the
key/value pairs in the map's iteration order). -/
def Json.as_object : Json → Option (List (String × Json))
  | .obj fields => some fields
  | _ => none

/-! ## src/types.rs -/

/-- Sqlite types (`enum Type` of src/types.rs; `Type` is reserved in Lean,
hence the trailing tick). -/
inductive Type' where
  | Null
  | Integer
  | Real
  | Text
  | Blob
  deriving DecidableEq, Repr

/-- `get_type` of src/types.rs: interpret a declared-type tag. -/
def get_type (t : String) : Except Unit Type' :=
  if t = "" then .ok .Null
  else if t = "integer" then .ok .Integer
  else if t = "real" then .ok .Real
  else if t = "text" then .ok .Text
  else if t = "blob" then .ok .Blob
  else .error ()

/-- The loop of `parse_vec_types`: walk the tag vector in order, mapping
each tag through `get_type`; the first unknown tag aborts the parse with
the custom decode error of src/types.rs line 23 (the source spells
"Unknewn"). -/
def parseTypesList : List String → Except String (List Type')
  | [] => .ok []
  | t :: rest =>
    match get_type t with
    | .ok val => (parseTypesList rest).map (fun vs => val :: vs)
    | .error _ => .error ("Unknewn sqlite type " ++ t)

/-- `parse_vec_types` of src/types.rs, after the (external) deserialization
of the input into `Option (Vec String)`. -/
def parse_vec_types (s : Option (List String)) : Except String (Option (List Type')) :=
  match s with
  | some s_vec => (parseTypesList s_vec).map some
  | none => .ok none

/-! ## Theorems about the column-type parser -/

/-- **C2.** Type parsing maps `""` to `Null`, `"integer"` to `Integer`,
`"real"` to `Real`, `"text"` to `Text` and `"blob"` to `Blob`, and every
other tag fails: `get_type` rejects it and `parse_vec_types` turns that
into a decode error whose message names the unknown tag. -/
theorem get_type_maps_tags (t : String)
    (h : t ∉ ["", "integer", "real", "text", "blob"]) :
    get_type "" = .ok .Null ∧
    get_type "integer" = .ok .Integer ∧
    get_type "real" = .ok .Real ∧
    get_type "text" = .ok .Text ∧
    get_type "blob" = .ok .Blob ∧
    get_type t = .error () ∧
    parse_vec_types (some [t]) = .error ("Unknewn sqlite type " ++ t) := by
  simp only [List.mem_cons, List.not_mem_nil, or_false, not_or] at h
  obtain ⟨h1, h2, h3, h4, h5⟩ := h
  refine ⟨rfl, rfl, rfl, rfl, rfl, ?_, ?_⟩
  · simp [get_type, h1, h2, h3, h4, h5]
  · simp [parse_vec_types, parseTypesList, get_type, Except.map, h1, h2, h3, h4, h5]

/-- Witness for `get_type_maps_tags` at the concrete unknown tag `"varchar"`. -/
theorem get_type_maps_tags_witness :
    get_type "varchar" = .error () ∧
    parse_vec_types (some ["varchar"]) = .error ("Unknewn sqlite type " ++ "varchar") := by
  have h := get_type_maps_tags "varchar" (by decide)
  exact ⟨h.2.2.2.2.2.1, h.2.2.2.2.2.2⟩

/-- **C9.** `parse_vec_types` is length- and order-preserving: a `none`
input yields `ok none`; a present list whose tags are all valid yields
`ok (some ys)` with `ys` the positional image of the tags under
`get_type`; a list containing one invalid tag fails the whole parse. -/
theorem parse_vec_types_shape :
    parse_vec_types none = .ok none ∧
    (∀ xs : List String, (∀ t ∈ xs, (get_type t).isOk = true) →
      ∃ ys : List Type', parse_vec_types (some xs) = .ok (some ys) ∧
        ys.length = xs.length ∧
        ∀ i : Nat, i < xs.length → get_type (xs.getD i "") = .ok (ys.getD i .Null)) ∧
    (∀ xs : List String, (∃ t ∈ xs, (get_type t).isOk = false) →
      ∃ e : String, parse_vec_types (some xs) = .error e) := by
  refine ⟨rfl, ?_, ?_⟩
  · intro xs hval
    suffices h : ∃ ys : List Type', parseTypesList xs = .ok ys ∧
        ys.length = xs.length ∧
        ∀ i : Nat, i < xs.length → get_type (xs.getD i "") = .ok (ys.getD i .Null) by
      obtain ⟨ys, hys, hlen, hpos⟩ := h
      exact ⟨ys, by simp [parse_vec_types, hys, Except.map], hlen, hpos⟩
    induction xs with
    | nil => exact ⟨[], rfl, rfl, fun i hi => absurd hi (Nat.not_lt_zero i)⟩
    | cons t rest ih =>
      have ht : (get_type t).isOk = true := hval t (List.mem_cons_self t rest)
      obtain ⟨v, hv⟩ : ∃ v, get_type t = .ok v := by
        cases hgt : get_type t with
        | ok v => exact ⟨v, rfl⟩
        | error e => rw [hgt] at ht; simp [Except.isOk, Except.toBool] at ht
      obtain ⟨ys, hys, hlen, hpos⟩ :=
        ih (fun u hu => hval u (List.mem_cons_of_mem t hu))
      refine ⟨v :: ys, ?_, by simp [hlen], ?_⟩
      · simp [parseTypesList, hv, hys, Except.map]
      · intro i hi
        cases i with
        | zero => simpa using hv
        | succ j =>
          simp only [List.getD_cons_succ]
          exact hpos j (Nat.lt_of_succ_lt_succ hi)
  · intro xs hbad
    induction xs with
    | nil => simp at hbad
    | cons t rest ih =>
      cases hgt : get_type t with
      | error u =>
        exact ⟨"Unknewn sqlite type " ++ t, by simp [parse_vec_types, parseTypesList, hgt, Except.map]⟩
      | ok v =>
        obtain ⟨u, hu, hbadu⟩ := hbad
        rcases List.mem_cons.mp hu with rfl | humem
        · rw [hgt] at hbadu; simp [Except.isOk, Except.toBool] at hbadu
        · obtain ⟨e, he⟩ := ih ⟨u, humem, hbadu⟩
          refine ⟨e, ?_⟩
          simp only [parse_vec_types, Except.map] at he ⊢
          cases hrest : parseTypesList rest with
          | ok vs => rw [hrest] at he; simp at he
          | error e2 =>
            rw [hrest] at he
            simp only at he
            cases he
            simp [parseTypesList, hgt, hrest, Except.map]

/-- Witness for `parse_vec_types_shape`: a valid list of two tags parses
positionally, and a list holding one unknown tag fails as a whole. -/
theorem parse_vec_types_shape_witness :
    (∃ ys : List Type', parse_vec_types (some ["integer", ""]) = .ok (some ys) ∧
      ys.length = ["integer", ""].length ∧
      ∀ i : Nat, i < ["integer", ""].length →
        get_type (["integer", ""].getD i "") = .ok (ys.getD i .Null)) ∧
    (∃ e : String, parse_vec_types (some ["text", "wibble"]) = .error e) :=
  ⟨parse_vec_types_shape.2.1 ["integer", ""] (by decide),
   parse_vec_types_shape.2.2 ["text", "wibble"] ⟨"wibble", by decide, by decide⟩⟩

/-! ## src/row.rs -/

/-- Error type of `Row::get`: the bounds branch builds a
`std::io::Error` of kind `NotFound`, the coercion branch propagates the
`serde_json::Error` unchanged (both reach the caller as `Box<dyn Error>`,
carrying only their message). -/
inductive RowError where
  | ioNotFound (msg : String)
  | serdeJson (msg : String)
  deriving DecidableEq, Repr

/-- `struct Row` of src/row.rs. -/
structure Row where
  row : List Json

/-- `Row::get` of src/row.rs.  The generic target type `T` with its serde
instance is modelled by an explicit coercion function `de` (the model of
`serde_json::from_value::<T>`); `Row::get` itself adds only the bounds
check and propagates the coercion error unchanged. -/
def Row.get {T : Type} (r : Row) (de : Json → Except String T) (id : Nat) :
    Except RowError T :=
  if id ≥ r.row.length then
    .error (.ioNotFound ("Row element with id " ++ toString id ++ " doesn't exist"))
  else
    match de (r.row.getD id .null) with
    | .ok val => .ok val
    | .error e => .error (.serdeJson e)

/-- Model of `serde_json::from_value::<i64>`: succeeds exactly on JSON
integer literals; the error messages follow serde's `invalid type`
wording, which names the expected type but nothing else. -/
def from_value_i64 : Json → Except String Int
  | .num n =>
    if n.exponent = 0 then .ok n.mantissa
    else .error "invalid type: floating point value, expected i64"
  | .str s => .error ("invalid type: string \x22" ++ s ++ "\x22, expected i64")
  | .bool _ => .error "invalid type: boolean, expected i64"
  | .null => .error "invalid type: null, expected i64"
  | .arr _ => .error "invalid type: sequence, expected i64"
  | .obj _ => .error "invalid type: map, expected i64"

/-! ## Theorems about `Row::get` -/

/-- **C3.** For every row, every coercion target and every index at or
past the row's length, `Row.get` returns the `NotFound` bounds error
whose message names the offending index — and, being a total Lean
function, it never panics. -/
theorem Row.get_out_of_bounds {T : Type} (r : Row) (de : Json → Except String T)
    (id : Nat) (h : id ≥ r.row.length) :
    r.get de id =
      .error (.ioNotFound ("Row element with id " ++ toString id ++ " doesn't exist")) := by
  simp [Row.get, h]

/-- Witness for `Row.get_out_of_bounds`: a one-element row read at index 3. -/
theorem Row.get_out_of_bounds_witness :
    Row.get ⟨[Json.str "fiona"]⟩ from_value_i64 3 =
      .error (.ioNotFound ("Row element with id " ++ toString 3 ++ " doesn't exist")) :=
  Row.get_out_of_bounds ⟨[Json.str "fiona"]⟩ from_value_i64 3 (by decide)

/-- **C4, counterexample.** At the in-bounds index 0 of the row
`["abc"]`, coercion to `i64` fails and `Row.get` returns exactly the
serde error; the character `'0'` does not occur in its message, so the
returned error cannot name the index 0. -/
theorem Row.get_decode_error_lacks_index :
    Row.get ⟨[Json.str "abc"]⟩ from_value_i64 0 =
      .error (.serdeJson "invalid type: string \x22abc\x22, expected i64") ∧
    (toString 0).toList = ['0'] ∧
    '0' ∉ "invalid type: string \x22abc\x22, expected i64".toList := by
  refine ⟨rfl, rfl, ?_⟩
  decide

/-- **C4, amended.** For every row, in-bounds index and coercion target,
when the JSON value at that index fails to coerce, `Row.get` returns the
coercion's own decode error unchanged (wrapped as the serde variant,
never a panic); no index information is added to it. -/
theorem Row.get_decode_error_propagates {T : Type} (r : Row)
    (de : Json → Except String T) (id : Nat) (h : id < r.row.length)
    (e : String) (hde : de (r.row.getD id .null) = .error e) :
    r.get de id = .error (.serdeJson e) := by
  have hde2 : de (r.row[id]?.getD Json.null) = .error e := by
    simpa [List.getD] using hde
  simp [Row.get, Nat.not_le_of_lt h, hde2]

/-- Witness for `Row.get_decode_error_propagates`: decoding the string
cell `"abc"` as `i64` at index 0. -/
theorem Row.get_decode_error_propagates_witness :
    Row.get ⟨[Json.str "abc"]⟩ from_value_i64 0 =
      .error (.serdeJson "invalid type: string \x22abc\x22, expected i64") :=
  Row.get_decode_error_propagates ⟨[Json.str "abc"]⟩ from_value_i64 0
    (by decide) "invalid type: string \x22abc\x22, expected i64" rfl

/-! ## src/connect.rs — data model -/

/-- `enum Scheme` of src/connect.rs. -/
inductive Scheme where
  | HTTP
  | HTTPS
  deriving DecidableEq, Repr

/-- `struct ConnectOptions` of src/connect.rs (the settings snapshot the
live connection keeps for per-request header construction). -/
structure ConnectOptions where
  scheme : Scheme
  host : String
  port : Nat
  user : Option String
  pass : Option String
  accept_invalid_cert : Bool
  deriving DecidableEq, Repr

/-- Modelled from the spec: `enum RqliteError` lives in src/error.rs,
which is not under src/; its four variants are the ones constructed in
src/connect.rs and listed in the spec's error taxonomy (section 7):
connection errors, the dedicated 401 authentication error, JSON
encode/decode errors, and shape/statement SQL errors. -/
inductive RqliteError where
  | Connection (msg : String)
  | AuthError
  | DataSer (msg : String)
  | SqlError (msg : String)
  deriving DecidableEq, Repr

/-- `struct Node` of src/connect.rs (`time`, an `f32` in the source, is
embedded as the decimal JSON literal it was deserialized from). -/
structure Node where
  id : String
  api_addr : String
  addr : String
  reachable : Bool
  leader : Bool
  time : JsonNum
  deriving DecidableEq, Repr

/-- UTF-8 bytes of one Unicode code point (the encoding `format!` /
`base64::encode` operate on). -/
def utf8Bytes (c : Nat) : List Nat :=
  if c < 0x80 then [c]
  else if c < 0x800 then [0xC0 + c / 64, 0x80 + c % 64]
  else if c < 0x10000 then [0xE0 + c / 4096, 0x80 + c / 64 % 64, 0x80 + c % 64]
  else [0xF0 + c / 262144, 0x80 + c / 4096 % 64, 0x80 + c / 64 % 64, 0x80 + c % 64]

/-- UTF-8 byte sequence of a string. -/
def strBytes (s : String) : List Nat :=
  (s.toList.map (fun ch => utf8Bytes ch.toNat)).flatten

/-- The standard base64 alphabet (RFC 4648, as used by `base64::encode`). -/
def base64Char (n : Nat) : Char :=
  "ABCDEFGHIJKLMNOPQRSTUVWXYZabcdefghijklmnopqrstuvwxyz0123456789+/".toList.getD n 'A'

/-- `base64::encode` over a byte list: standard alphabet with `=` padding. -/
def base64Encode : List Nat → String
  | [] => ""
  | [b0] =>
    String.mk [base64Char (b0 / 4), base64Char (b0 % 4 * 16), '=', '=']
  | [b0, b1] =>
    String.mk [base64Char (b0 / 4), base64Char (b0 % 4 * 16 + b1 / 16),
               base64Char (b1 % 16 * 4), '=']
  | b0 :: b1 :: b2 :: rest =>
    String.mk [base64Char (b0 / 4), base64Char (b0 % 4 * 16 + b1 / 16),
               base64Char (b1 % 16 * 4 + b2 / 64), base64Char (b2 % 64)]
      ++ base64Encode rest

/-- An HTTP request as the builder assembles it: method, uri, ordered
header list, optional JSON body. -/
structure RequestParts where
  method : String
  uri : String
  headers : List (String × String)
  body : Option Json

/-- `Connection::base_headers`: append the `Host` and
`Content-Type: application/json` headers to the builder. -/
def Connection.base_headers (s : ConnectOptions) (hs : List (String × String)) :
    List (String × String) :=
  hs ++ [("Host", s.host ++ ":" ++ toString s.port),
         ("Content-Type", "application/json")]

/-- `Connection::auth`: when both user and pass are configured, append the
Basic-Auth header with the base64 of `user:pass`; otherwise leave the
builder untouched. -/
def Connection.auth (s : ConnectOptions) (hs : List (String × String)) :
    List (String × String) :=
  if s.user.isSome && s.pass.isSome then
    hs ++ [("Authorization",
            "Basic " ++ base64Encode (strBytes (s.user.getD "" ++ ":" ++ s.pass.getD "")))]
  else
    hs

/-- The header list every endpoint of src/connect.rs builds:
`auth(base_headers(Request::builder()))` starting from no headers. -/
def Connection.authHeaders (s : ConnectOptions) : List (String × String) :=
  Connection.auth s (Connection.base_headers s [])

/-- An HTTP response as seen after the (external) transport and JSON
parse: its status code and its parsed body. -/
structure HttpResponse where
  status : Nat
  body : Json

/-- `Connection::check_auth` of src/connect.rs lines 262-267. -/
def Connection.check_auth (status_code : Nat) : Except RqliteError Unit :=
  if status_code = 401 then .error .AuthError else .ok ()

/-- `Connection::request` of src/connect.rs lines 222-241, after body
serialization: a transport-level send failure becomes a connection
error; on a received response the status is run through `check_auth` and
the response is returned untouched. -/
def Connection.request (sendResult : Except String HttpResponse) :
    Except RqliteError HttpResponse :=
  match sendResult with
  | .error e => .error (.Connection e)
  | .ok resp => do
    Connection.check_auth resp.status
    pure resp

/-- Modelled from the spec: `Cursor::execute` lives in src/cursor.rs,
which is not under src/; per spec sections 4.5 and 8 it sends its
statement through the Request Executor (`Connection.request`) and
propagates any authentication failure unchanged. Response decoding past
the request is irrelevant here and is not modelled. -/
def Cursor.execute (sendResult : Except String HttpResponse) :
    Except RqliteError HttpResponse :=
  Connection.request sendResult

/-! ## src/connect.rs — endpoint request builders -/

/-- The request `Connection::ready` builds: `GET /readyz` with the
authenticated base headers and no body. -/
def Connection.readyRequest (s : ConnectOptions) : RequestParts :=
  { method := "GET", uri := "/readyz",
    headers := Connection.authHeaders s, body := none }

/-- The request `Connection::nodes` builds: `GET /nodes?nonvoters` or
`GET /nodes` depending on the flag, authenticated base headers, no body. -/
def Connection.nodesRequest (s : ConnectOptions) (show_nonvoters : Bool) : RequestParts :=
  { method := "GET",
    uri := if show_nonvoters then "/nodes?nonvoters" else "/nodes",
    headers := Connection.authHeaders s, body := none }

/-- The request `Connection::remove` builds: `DELETE /remove` with the
authenticated base headers and the JSON body `{"id": id}`. -/
def Connection.removeRequest (s : ConnectOptions) (id : String) : RequestParts :=
  { method := "DELETE", uri := "/remove",
    headers := Connection.authHeaders s,
    body := some (Json.obj [("id", Json.str id)]) }

/-! ## src/connect.rs — cluster operations (response handling) -/

/-- `Connection::ready` of src/connect.rs lines 351-360, past the request:
errors (including the 401 translation) propagate; a received status other
than exactly 200 yields `false`, 200 yields `true`. -/
def Connection.ready (sendResult : Except String HttpResponse) :
    Except RqliteError Bool := do
  let resp ← Connection.request sendResult
  if resp.status ≠ 200 then pure false else pure true

/-- `Connection::remove` of src/connect.rs lines 378-387, past the request
(the request it sends is `Connection.removeRequest`): status other than
200 yields `false`, 200 yields `true`. -/
def Connection.remove (sendResult : Except String HttpResponse) :
    Except RqliteError Bool := do
  let resp ← Connection.request sendResult
  if resp.status ≠ 200 then pure false else pure true

/-- `struct _Node` of src/connect.rs: the serde helper record, the fields
of a node-info value minus the id. -/
structure _Node where
  api_addr : String
  addr : String
  reachable : Bool
  leader : Bool
  time : JsonNum
  deriving DecidableEq

/-- serde: deserialize a JSON value as a string. -/
def deString : Json → Except String String
  | .str s => .ok s
  | _ => .error "invalid type, expected a string"

/-- serde: deserialize a JSON value as a bool. -/
def deBool : Json → Except String Bool
  | .bool b => .ok b
  | _ => .error "invalid type, expected a boolean"

/-- serde: deserialize a JSON value as an `f32`, kept as the decimal
literal. -/
def deF32 : Json → Except String JsonNum
  | .num n => .ok n
  | _ => .error "invalid type, expected f32"

/-- serde: pick a required field out of a JSON object's pairs. -/
def deField (fields : List (String × Json)) (key : String) : Except String Json :=
  match fields.lookup key with
  | some v => .ok v
  | none => .error ("missing field " ++ key)

/-- Model of `serde_json::from_value::<_Node>`: requires a JSON object
holding the five `_Node` fields with their declared types (error
messages abbreviate serde's). -/
def from_value_Node (j : Json) : Except String _Node :=
  match j with
  | .obj fields => do
    let api_addr ← deField fields "api_addr" >>= deString
    let addr ← deField fields "addr" >>= deString
    let reachable ← deField fields "reachable" >>= deBool
    let leader ← deField fields "leader" >>= deBool
    let time ← deField fields "time" >>= deF32
    pure { api_addr, addr, reachable, leader, time }
  | _ => .error "invalid type, expected struct _Node"

/-- The loop of `Connection::nodes`: walk the key/value pairs of the
response object, deserialize each value as `_Node`, pair it with its key
as the node id; the first value that fails to deserialize aborts with a
`DataSer` error. -/
def nodesFrom : List (String × Json) → Except RqliteError (List Node)
  | [] => .ok []
  | (key, val) :: rest =>
    match from_value_Node val with
    | .error e => .error (.DataSer e)
    | .ok dn =>
      (nodesFrom rest).map (fun ns =>
        { id := key, api_addr := dn.api_addr, addr := dn.addr,
          reachable := dn.reachable, leader := dn.leader, time := dn.time } :: ns)

/-- The body handling of `Connection::nodes` (src/connect.rs lines
307-338): a top-level value that is not an object is the SQL-error of
line 338; an object is iterated pair by pair (the source iterates the
`Option` returned by `as_object`, so an absent map would simply yield an
empty vector). -/
def Connection.nodes_decode (json : Json) : Except RqliteError (List Node) :=
  if json.is_object then
    match json.as_object with
    | some fields => nodesFrom fields
    | none => .ok []
  else
    .error (.SqlError "Error deserializing json body")

/-- `Connection::nodes` of src/connect.rs lines 301-339, past the request
(the request it sends is `Connection.nodesRequest`): read the response
body and decode it. -/
def Connection.nodes (sendResult : Except String HttpResponse) :
    Except RqliteError (List Node) := do
  let resp ← Connection.request sendResult
  Connection.nodes_decode resp.body

/-! ## Theorems about the request path -/

/-- Reduction of `Except` bind on a success, for rewriting `do` blocks. -/
theorem except_bind_ok {ε α β : Type} (a : α) (f : α → Except ε β) :
    (Except.ok a >>= f) = f a := rfl

/-- Reduction of `Except` bind on an error, for rewriting `do` blocks. -/
theorem except_bind_error {ε α β : Type} (e : ε) (f : α → Except ε β) :
    (Except.error e >>= f : Except ε β) = Except.error e := rfl

/-- Reduction of `Except` pure, for rewriting `do` blocks. -/
theorem except_pure {ε α : Type} (a : α) :
    (pure a : Except ε α) = Except.ok a := rfl

/-- Example settings used by the concrete witnesses below. -/
def exampleOptions : ConnectOptions :=
  { scheme := .HTTP, host := "127.0.0.1", port := 4001,
    user := some "root", pass := some "root", accept_invalid_cert := false }

/-- **C1.** Every call on the request path — `request` itself and its
callers `ready`, `nodes`, `remove` and (spec-modelled) `Cursor.execute`
— turns an HTTP 401 status into `AuthError` whatever the body is, and
`request` passes any other status through uninterpreted, returning the
response unchanged. -/
theorem Connection.request_translates_401 (resp : HttpResponse) :
    (resp.status = 401 →
      Connection.request (.ok resp) = .error .AuthError ∧
      Connection.ready (.ok resp) = .error .AuthError ∧
      Connection.nodes (.ok resp) = .error .AuthError ∧
      Connection.remove (.ok resp) = .error .AuthError ∧
      Cursor.execute (.ok resp) = .error .AuthError) ∧
    (resp.status ≠ 401 → Connection.request (.ok resp) = .ok resp) := by
  constructor
  · intro h
    have hreq : Connection.request (.ok resp) = .error .AuthError := by
      simp [Connection.request, Connection.check_auth, h, except_bind_error]
    exact ⟨hreq,
      by simp [Connection.ready, hreq, except_bind_error],
      by simp [Connection.nodes, hreq, except_bind_error],
      by simp [Connection.remove, hreq, except_bind_error],
      by simp [Cursor.execute, hreq]⟩
  · intro h
    simp [Connection.request, Connection.check_auth, h, except_bind_ok, except_pure]

/-- Witness for `Connection.request_translates_401`: a 401 response with
a non-empty body is turned into `AuthError`; a 503 passes through. -/
theorem Connection.request_translates_401_witness :
    Connection.request (.ok ⟨401, Json.str "try harder"⟩) = .error .AuthError ∧
    Connection.request (.ok ⟨503, Json.null⟩) = .ok ⟨503, Json.null⟩ :=
  ⟨(Connection.request_translates_401 ⟨401, Json.str "try harder"⟩).1 rfl |>.1,
   (Connection.request_translates_401 ⟨503, Json.null⟩).2 (by decide)⟩

/-- **C5, counterexample.** A 401 readiness response does raise an error:
`ready` yields `AuthError` there, not the `false` the claim promises for
every non-200 status. -/
theorem Connection.ready_401_raises :
    Connection.ready (.ok ⟨401, Json.null⟩) = .error .AuthError ∧
    Connection.ready (.ok ⟨401, Json.null⟩) ≠ .ok false := by
  exact ⟨rfl, by intro h; cases h⟩

/-- **C5, amended.** For every response whose status is not 401, `ready`
returns `true` exactly when the status is 200 and `false` for any other
status, without raising an error; a 401 status is the one exception,
raised as `AuthError` by the shared request path. -/
theorem Connection.ready_iff_200 (resp : HttpResponse) (h : resp.status ≠ 401) :
    Connection.ready (.ok resp) = .ok (resp.status == 200) := by
  have hreq : Connection.request (.ok resp) = .ok resp := by
    simp [Connection.request, Connection.check_auth, h, except_bind_ok, except_pure]
  by_cases h200 : resp.status = 200 <;>
    simp [Connection.ready, hreq, except_bind_ok, except_pure, h200]

/-- Witness for `Connection.ready_iff_200`: status 503 yields `ok false`,
status 200 yields `ok true`. -/
theorem Connection.ready_iff_200_witness :
    Connection.ready (.ok ⟨503, Json.null⟩) = .ok false ∧
    Connection.ready (.ok ⟨200, Json.null⟩) = .ok true :=
  ⟨Connection.ready_iff_200 ⟨503, Json.null⟩ (by decide),
   Connection.ready_iff_200 ⟨200, Json.null⟩ (by decide)⟩

/-- **C7, counterexample.** A 401 response to `remove` yields `AuthError`,
not the `false` the claim promises for every non-200 status. -/
theorem Connection.remove_401_raises :
    Connection.remove (.ok ⟨401, Json.null⟩) = .error .AuthError ∧
    Connection.remove (.ok ⟨401, Json.null⟩) ≠ .ok false := by
  exact ⟨rfl, by intro h; cases h⟩

/-- **C7, amended.** For every node id, `remove` issues a DELETE to
`/remove` whose JSON body is the object `{"id": node_id}`, and for every
response whose status is not 401 it returns `true` exactly when the
status is 200 and `false` otherwise; a 401 status is raised as
`AuthError` by the shared request path. -/
theorem Connection.remove_spec (s : ConnectOptions) (id : String)
    (resp : HttpResponse) (h : resp.status ≠ 401) :
    (Connection.removeRequest s id).method = "DELETE" ∧
    (Connection.removeRequest s id).uri = "/remove" ∧
    (Connection.removeRequest s id).body = some (Json.obj [("id", Json.str id)]) ∧
    Connection.remove (.ok resp) = .ok (resp.status == 200) := by
  have hreq : Connection.request (.ok resp) = .ok resp := by
    simp [Connection.request, Connection.check_auth, h, except_bind_ok, except_pure]
  refine ⟨rfl, rfl, rfl, ?_⟩
  by_cases h200 : resp.status = 200 <;>
    simp [Connection.remove, hreq, except_bind_ok, except_pure, h200]

/-- Witness for `Connection.remove_spec`: removing `"num5"` with a 200
response returns `true`. -/
theorem Connection.remove_spec_witness :
    (Connection.removeRequest exampleOptions "num5").body =
      some (Json.obj [("id", Json.str "num5")]) ∧
    Connection.remove (.ok ⟨200, Json.null⟩) = .ok true :=
  ⟨(Connection.remove_spec exampleOptions "num5" ⟨200, Json.null⟩ (by decide)).2.2.1,
   (Connection.remove_spec exampleOptions "num5" ⟨200, Json.null⟩ (by decide)).2.2.2⟩

/-- **C10.** `nodes` on a response whose body is the empty JSON object
returns `ok` with the empty node list (status 401 aside, which the
request path raises as `AuthError`). -/
theorem Connection.nodes_empty_object (status : Nat) (h : status ≠ 401) :
    Connection.nodes (.ok ⟨status, Json.obj []⟩) = .ok [] := by
  have hreq : Connection.request (.ok ⟨status, Json.obj []⟩) = .ok ⟨status, Json.obj []⟩ := by
    simp [Connection.request, Connection.check_auth, h, except_bind_ok, except_pure]
  simp [Connection.nodes, hreq, except_bind_ok, Connection.nodes_decode,
        Json.is_object, Json.as_object, nodesFrom]

/-- Witness for `Connection.nodes_empty_object` at status 200. -/
theorem Connection.nodes_empty_object_witness :
    Connection.nodes (.ok ⟨200, Json.obj []⟩) = .ok [] :=
  Connection.nodes_empty_object 200 (by decide)

/-- **C6.** Every request built in src/connect.rs carries the header list
`auth(base_headers(...))` starting from an empty builder; that list
always holds `Host` (as `host:port`) and `Content-Type:
application/json`, holds `Authorization: Basic base64(user:pass)`
exactly when both credentials are configured, and holds no
`Authorization` header at all when either credential is absent. -/
theorem Connection.headers_spec (s : ConnectOptions) (flag : Bool) (id : String) :
    ((Connection.readyRequest s).headers = Connection.authHeaders s ∧
     (Connection.nodesRequest s flag).headers = Connection.authHeaders s ∧
     (Connection.removeRequest s id).headers = Connection.authHeaders s) ∧
    ("Host", s.host ++ ":" ++ toString s.port) ∈ Connection.authHeaders s ∧
    ("Content-Type", "application/json") ∈ Connection.authHeaders s ∧
    (∀ u p, s.user = some u → s.pass = some p →
      ("Authorization", "Basic " ++ base64Encode (strBytes (u ++ ":" ++ p)))
        ∈ Connection.authHeaders s) ∧
    ((s.user = none ∨ s.pass = none) →
      ∀ v, ("Authorization", v) ∉ Connection.authHeaders s) := by
  refine ⟨⟨rfl, rfl, rfl⟩, ?_, ?_, ?_, ?_⟩
  · by_cases h : s.user.isSome && s.pass.isSome <;>
      simp [Connection.authHeaders, Connection.auth, Connection.base_headers, h]
  · by_cases h : s.user.isSome && s.pass.isSome <;>
      simp [Connection.authHeaders, Connection.auth, Connection.base_headers, h]
  · intro u p hu hp
    simp [Connection.authHeaders, Connection.auth, Connection.base_headers, hu, hp]
  · intro habs v
    have h : (s.user.isSome && s.pass.isSome) = false := by
      rcases habs with h | h <;> simp [h]
    simp [Connection.authHeaders, Connection.auth, Connection.base_headers, h]

/-- Witness for `Connection.headers_spec` at the example settings (user
`root`, pass `root`): the three base headers, with the Basic credential
being the base64 of `root:root`. -/
theorem Connection.headers_spec_witness :
    ("Host", "127.0.0.1:4001") ∈ Connection.authHeaders exampleOptions ∧
    ("Content-Type", "application/json") ∈ Connection.authHeaders exampleOptions ∧
    ("Authorization", "Basic cm9vdDpyb290") ∈ Connection.authHeaders exampleOptions :=
  ⟨(Connection.headers_spec exampleOptions false "").2.1,
   (Connection.headers_spec exampleOptions false "").2.2.1,
   (Connection.headers_spec exampleOptions false "").2.2.2.1 "root" "root" rfl rfl⟩

/-- Helper: when every value of the object deserializes, the `nodes` loop
returns one `Node` per key/value pair, positionally, pairing each key as
the id with the fields decoded from its value. -/
theorem nodesFrom_ok (fields : List (String × Json))
    (h : ∀ kv ∈ fields, (from_value_Node kv.2).isOk = true) :
    ∃ ns : List Node, nodesFrom fields = .ok ns ∧ ns.length = fields.length ∧
      ∀ i : Nat, i < fields.length → ∃ key val dn,
        fields[i]? = some (key, val) ∧ from_value_Node val = .ok dn ∧
        ns[i]? = some { id := key, api_addr := dn.api_addr, addr := dn.addr,
                        reachable := dn.reachable, leader := dn.leader,
                        time := dn.time } := by
  induction fields with
  | nil => exact ⟨[], rfl, rfl, fun i hi => absurd hi (Nat.not_lt_zero i)⟩
  | cons kv rest ih =>
    obtain ⟨key, val⟩ := kv
    have hhd : (from_value_Node val).isOk = true :=
      h (key, val) (List.mem_cons_self (key, val) rest)
    obtain ⟨dn, hdn⟩ : ∃ dn, from_value_Node val = .ok dn := by
      cases hv : from_value_Node val with
      | ok dn => exact ⟨dn, rfl⟩
      | error e => rw [hv] at hhd; simp [Except.isOk, Except.toBool] at hhd
    obtain ⟨ns, hns, hlen, hpos⟩ :=
      ih (fun kv hkv => h kv (List.mem_cons_of_mem (key, val) hkv))
    refine ⟨{ id := key, api_addr := dn.api_addr, addr := dn.addr,
              reachable := dn.reachable, leader := dn.leader, time := dn.time } :: ns,
            ?_, by simp [hlen], ?_⟩
    · simp [nodesFrom, hdn, hns, Except.map]
    · intro i hi
      cases i with
      | zero => exact ⟨key, val, dn, by simp, hdn, by simp⟩
      | succ j =>
        obtain ⟨k2, v2, dn2, hf, hd2, hn2⟩ := hpos j (Nat.lt_of_succ_lt_succ hi)
        exact ⟨k2, v2, dn2, by simpa using hf, hd2, by simpa using hn2⟩

/-- **C8.** `nodes` sends a GET whose path varies on the nonvoters flag;
for any non-401 response whose body is a JSON object all of whose values
deserialize as node records, it returns one `Node` per key/value pair —
the id being the key and the other fields decoded from the value — and
for any non-object top-level body it returns the SQL-error of
src/connect.rs line 338. -/
theorem Connection.nodes_spec (s : ConnectOptions) (flag : Bool)
    (resp : HttpResponse) (h401 : resp.status ≠ 401) :
    ((Connection.nodesRequest s flag).method = "GET" ∧
     (Connection.nodesRequest s flag).uri =
       (if flag then "/nodes?nonvoters" else "/nodes")) ∧
    (∀ fields : List (String × Json), resp.body = .obj fields →
      (∀ kv ∈ fields, (from_value_Node kv.2).isOk = true) →
      ∃ ns : List Node, Connection.nodes (.ok resp) = .ok ns ∧
        ns.length = fields.length ∧
        ∀ i : Nat, i < fields.length → ∃ key val dn,
          fields[i]? = some (key, val) ∧ from_value_Node val = .ok dn ∧
          ns[i]? = some { id := key, api_addr := dn.api_addr, addr := dn.addr,
                          reachable := dn.reachable, leader := dn.leader,
                          time := dn.time }) ∧
    (resp.body.is_object = false →
      Connection.nodes (.ok resp) = .error (.SqlError "Error deserializing json body")) := by
  have hreq : Connection.request (.ok resp) = .ok resp := by
    simp [Connection.request, Connection.check_auth, h401, except_bind_ok, except_pure]
  refine ⟨⟨rfl, rfl⟩, ?_, ?_⟩
  · intro fields hbody hval
    obtain ⟨ns, hns, hlen, hpos⟩ := nodesFrom_ok fields hval
    refine ⟨ns, ?_, hlen, hpos⟩
    simp [Connection.nodes, hreq, except_bind_ok, Connection.nodes_decode,
          hbody, Json.is_object, Json.as_object, hns]
  · intro hobj
    have hd : Connection.nodes_decode resp.body =
        .error (.SqlError "Error deserializing json body") := by
      simp [Connection.nodes_decode, hobj]
    simp [Connection.nodes, hreq, except_bind_ok, hd]

/-- The mock node-listing body of the spec's scenario (section 8):
one node keyed `"1"`, leader, with latency literal `0.000037`. -/
def mockNodesBody : Json :=
  Json.obj [("1", Json.obj
    [("api_addr", Json.str "http://127.0.0.1:4001"),
     ("addr", Json.str "127.0.0.1:4002"),
     ("reachable", Json.bool true),
     ("leader", Json.bool true),
     ("time", Json.num ⟨37, 6⟩)])]

/-- Witness for `Connection.nodes_spec`: the spec's mock response yields
exactly one node, keyed `"1"`. -/
theorem Connection.nodes_spec_witness :
    ∃ ns : List Node, Connection.nodes (.ok ⟨200, mockNodesBody⟩) = .ok ns ∧
      ns.length = 1 ∧
      ∀ i : Nat, i < 1 → ∃ key val dn,
        [("1", Json.obj
          [("api_addr", Json.str "http://127.0.0.1:4001"),
           ("addr", Json.str "127.0.0.1:4002"),
           ("reachable", Json.bool true),
           ("leader", Json.bool true),
           ("time", Json.num ⟨37, 6⟩)])][i]? = some (key, val) ∧
        from_value_Node val = .ok dn ∧
        ns[i]? = some { id := key, api_addr := dn.api_addr, addr := dn.addr,
                        reachable := dn.reachable, leader := dn.leader,
                        time := dn.time } :=
  (Connection.nodes_spec exampleOptions false ⟨200, mockNodesBody⟩ (by decide)).2.1
    [("1", Json.obj
      [("api_addr", Json.str "http://127.0.0.1:4001"),
       ("addr", Json.str "127.0.0.1:4002"),
       ("reachable", Json.bool true),
       ("leader", Json.bool true),
       ("time", Json.num ⟨37, 6⟩)])] rfl (by decide)
